import Mathlib

/-
  Verification development for OrangutanBuzzer.cpp of libpololu-avr.

  The file shallowly embeds the buzzer driver: timer1 fast-PWM tone
  generation, the playFrequency / playNote API, and the timer1 overflow
  interrupt handler that counts down the tone duration.

  Machine model: AVR at F_CPU = 20 MHz. On this target unsigned char is
  8 bits, unsigned int is 16 bits and long is 32 bits. Registers and the
  two shared variables are natural numbers; every store that can wrap is
  reduced mod 2 ^ 16 or mod 2 ^ 8 explicitly. The global interrupt-enable
  bit (the I bit of SREG) is a Bool field; cli clears it, sei sets it,
  and a raw SREG restore writes the saved value back.
-/

namespace OrangutanBuzzer

/-- Modelled from the spec: the header OrangutanBuzzer.h is not among the
sources. Per the source comments, the most significant bit of the 16-bit
frequency argument is the divide-by-10 flag, so DIV_BY_10 = 2 ^ 15. -/
def DIV_BY_10 : Nat := 32768

/-- Modelled from the spec: note number 255 is the silent-note sentinel
(source comment: if note = 255, freq = 1 kHz and buzzer is silent). -/
def SILENT_NOTE : Nat := 255

/-- The observable state: the timer1 registers, the buzzer pin direction
register DDRB (bit 2 is PB2, the buzzer pin), the two shared countdown
variables, and the global interrupt-enable bit. -/
structure BuzzerState where
  tccr1a : Nat
  tccr1b : Nat
  tccr1c : Nat
  ocr1a : Nat
  ocr1b : Nat
  tcnt1 : Nat
  timsk1 : Nat
  tifr1 : Nat
  ddrb : Nat
  buzzerTimeout : Nat
  buzzerFinished : Nat
  iFlag : Bool
deriving DecidableEq

/-- OrangutanBuzzer::init, lines 84-119: buzzer pin to input, fast PWM
mode 14 with prescaler 1, TOP = F_CPU / 1000 = 20000 (1 kHz), zero duty
cycle, counter cleared, all timer1 flags cleared, overflow interrupt
enabled. -/
def init (s : BuzzerState) : BuzzerState :=
  { s with
    ddrb := s.ddrb &&& 251
    tccr1a := 35
    tccr1b := 25
    tccr1c := 0
    ocr1a := 20000
    ocr1b := 0
    tcnt1 := 0
    tifr1 := 255
    timsk1 := 1 }

/-- ISR(TIMER1_OVF_vect), lines 29-39. The post-decrement test
(buzzerTimeout-- == 0) compares the old value with 0 and decrements in
either case; on a 16-bit unsigned the decrement of 0 wraps to 65535.
When the old value is 0 the handler selects the IO clock (prescaler 1),
sets TOP for 1 kHz, zero duty cycle, turns the buzzer pin back into an
input and raises buzzerFinished. -/
def tick (s : BuzzerState) : BuzzerState :=
  if s.buzzerTimeout = 0 then
    { s with
      buzzerTimeout := 65535
      tccr1b := s.tccr1b &&& 248 ||| 1
      ocr1a := 20000
      ocr1b := 0
      ddrb := s.ddrb &&& 251
      buzzerFinished := 1 }
  else
    { s with buzzerTimeout := s.buzzerTimeout - 1 }

/-- The multiplier chosen at lines 141-145: 10 when the DIV_BY_10 bit of
the frequency argument is set, otherwise 1. -/
def pfMult (freq : Nat) : Nat :=
  if freq &&& 32768 ≠ 0 then 10 else 1

/-- The frequency value after the DIV_BY_10 bit is cleared, lines
141-145 (freq &= ~DIV_BY_10 on a 16-bit unsigned is freq &&& 32767). -/
def pfStrip (freq : Nat) : Nat :=
  if freq &&& 32768 ≠ 0 then freq &&& 32767 else freq

/-- Lines 147-175 of playFrequency: clock-select and counter-top
computation. Returns (newTCCR1B, newOCR1A, freq after the branch
clamping). The argument old is the TCCR1B value on entry (its clock
select bits are cleared and replaced). Note that the C variable val is
an unsigned char, so 40 * multiplier is stored mod 256: for the tenths
encoding the intended 400 wraps to 144. The divisions are computed in
32-bit unsigned and then stored into 16-bit unsigned variables, hence
the reductions mod 65536. -/
def pfBranch (old freq : Nat) : Nat × Nat × Nat :=
  let multiplier := pfMult freq
  let f := pfStrip freq
  let base := old &&& 248
  if f > 400 * multiplier then
    let f := if f > 10000 then 10000 else f
    (base ||| 1, 20000000 / f % 65536, f)
  else
    let val := 40 * multiplier % 256
    let f := if f < val then val else f
    let top := if multiplier = 10 then 25000000 / f % 65536 else 2500000 / f % 65536
    (base ||| 2, top, f)

/-- Lines 178-181: the frequency value used for the timeout computation;
for the tenths encoding it is rounded to whole hertz by (freq + 5) / 10. -/
def pfEffFreq (freq : Nat) : Nat :=
  if pfMult freq = 10 then ((pfBranch 0 freq).2.2 + 5) / 10 else (pfBranch 0 freq).2.2

/-- Lines 182-185: the tick timeout. An exact passthrough of the
duration when the effective frequency is 1000 Hz, otherwise
duration * freq / 1000 computed in 32-bit signed (exact for 16-bit
inputs) and stored into a 16-bit unsigned. -/
def pfTimeout (freq duration : Nat) : Nat :=
  if pfEffFreq freq = 1000 then duration
  else duration * pfEffFreq freq / 1000 % 65536

/-- OrangutanBuzzer::playFrequency, lines 130-203. The arguments are
reduced to their C types (unsigned int, unsigned int, unsigned char)
first. The epilogue mirrors lines 195-202: the status register is
saved, cli clears the interrupt bit, the 16-bit registers and the
timeout are written, the saved SREG is restored, and then sei
unconditionally sets the interrupt bit again. -/
def playFrequency (freq0 duration0 volume0 : Nat) (s : BuzzerState) : BuzzerState :=
  let freq := freq0 % 65536
  let duration := duration0 % 65536
  let volume := volume0 % 256
  let s0 := { s with buzzerFinished := 0 }
  let res := pfBranch s0.tccr1b freq
  let newTCCR1B := res.1
  let newOCR1A := res.2.1
  let timeout := pfTimeout freq duration
  let s1 := { s0 with ddrb := if volume = 0 then s0.ddrb &&& 251 else s0.ddrb ||| 4 }
  let volume := if volume > 15 then 15 else volume
  let sreg := s1.iFlag
  let s2 := { s1 with iFlag := false }
  let s3 := { s2 with tccr1b := newTCCR1B, ocr1a := newOCR1A }
  let s4 := { s3 with ocr1b := s3.ocr1a >>> (16 - volume) }
  let s5 := { s4 with buzzerTimeout := timeout }
  let s6 := { s5 with iFlag := sreg }
  { s6 with iFlag := true }

/-- The frequency table for the twelve lowest allowed notes, lines
263-301, in tenths of a hertz; the switch default leaves freq at 0. -/
def noteTable : Nat → Nat
  | 0 => 412
  | 1 => 437
  | 2 => 463
  | 3 => 490
  | 4 => 519
  | 5 => 550
  | 6 => 583
  | 7 => 617
  | 8 => 654
  | 9 => 693
  | 10 => 734
  | 11 => 778
  | _ => 0

/-- The frequency code computed by playNote for a non-silent note,
lines 244-312. offset_note = note - 16 is an unsigned char, so for
note < 16 it wraps mod 256 (it is then overwritten with 0 since
note <= 16). Octaves below 7 double by shifting; above 160 Hz the
tenths digit is dropped with rounding, otherwise the DIV_BY_10 flag is
added; octave 7 uses (freq * 64 + 2) / 5 to avoid 16-bit overflow. -/
def noteFreqCode (note : Nat) : Nat :=
  let offset0 := (note + 240) % 256
  let offset := if note ≤ 16 then 0 else if offset0 > 95 then 95 else offset0
  let exponent := offset / 12
  let base := noteTable (offset - exponent * 12)
  if exponent < 7 then
    let f := (base <<< exponent) % 65536
    if exponent > 1 then (f + 5) / 10 else (f + DIV_BY_10) % 65536
  else
    (base * 64 + 2) / 5

/-- OrangutanBuzzer::playNote, lines 216-317: the silent-note sentinel
and volume 0 are special-cased to a 1 kHz silent reference tone; the
volume is clamped to 15 before delegating to playFrequency. -/
def playNote (note0 duration0 volume0 : Nat) (s : BuzzerState) : BuzzerState :=
  let note := note0 % 256
  let duration := duration0 % 65536
  let volume := volume0 % 256
  if note = SILENT_NOTE ∨ volume = 0 then
    playFrequency 1000 duration 0 s
  else
    playFrequency (noteFreqCode note) duration (if volume > 15 then 15 else volume) s

/-- OrangutanBuzzer::isPlaying, lines 321-324: the negation of the
buzzerFinished flag. -/
def isPlaying (s : BuzzerState) : Bool :=
  s.buzzerFinished == 0

/-- n executions of the overflow interrupt handler. -/
def ticks : Nat → BuzzerState → BuzzerState
  | 0, s => s
  | n + 1, s => ticks n (tick s)

/-- The idle 1 kHz reference configuration: IO clock (prescaler 1)
selected in the clock-select bits of TCCR1B, TOP = F_CPU / 1000 = 20000,
zero duty cycle, and the buzzer pin PB2 configured as an input. -/
def idleConfig (s : BuzzerState) : Prop :=
  s.tccr1b &&& 7 = 1 ∧ s.ocr1a = 20000 ∧ s.ocr1b = 0 ∧ s.ddrb &&& 4 = 0

/-- The state at reset: all registers and both shared variables zero
(the C runtime zeroes globals) and global interrupts disabled. -/
def zeroState : BuzzerState :=
  { tccr1a := 0, tccr1b := 0, tccr1c := 0, ocr1a := 0, ocr1b := 0
    tcnt1 := 0, timsk1 := 0, tifr1 := 0, ddrb := 0
    buzzerTimeout := 0, buzzerFinished := 0, iFlag := false }

/-- The state right after OrangutanBuzzer::init runs at startup. -/
def initialState : BuzzerState :=
  init zeroState

/-- States reachable from initialization by any sequence of
playFrequency calls, playNote calls and interrupt-handler ticks, each
step taken atomically. -/
inductive Reachable : BuzzerState → Prop
  | start (s0 : BuzzerState) : Reachable (init s0)
  | freqStep (f d v : Nat) {s : BuzzerState} : Reachable s → Reachable (playFrequency f d v s)
  | noteStep (n d v : Nat) {s : BuzzerState} : Reachable s → Reachable (playNote n d v s)
  | tickStep {s : BuzzerState} : Reachable s → Reachable (tick s)

/-- The effective frequency in whole hertz that the timeout computation
uses, written out flat: the DIV_BY_10 flag is stripped, the value is
clamped by the branch of lines 150-175 (with the wrapped unsigned char
bound 144 in the tenths regime) and tenths are rounded to hertz. -/
def effFreqOf (freq : Nat) : Nat :=
  if freq &&& 32768 ≠ 0 then
    ((if freq &&& 32767 > 4000 then
        (if freq &&& 32767 > 10000 then 10000 else freq &&& 32767)
      else
        (if freq &&& 32767 < 144 then 144 else freq &&& 32767)) + 5) / 10
  else
    if freq > 400 then (if freq > 10000 then 10000 else freq)
    else (if freq < 40 then 40 else freq)

/-- True frequency in tenths of a hertz denoted by a frequency code:
the low 15 bits when the DIV_BY_10 flag is set, ten times the value
otherwise. -/
def codeTenths (freq : Nat) : Nat :=
  if freq &&& 32768 ≠ 0 then freq &&& 32767 else 10 * freq

/-- True frequency, in tenths of a hertz, of the code playNote computes
for a note number. -/
def noteTenths (note : Nat) : Nat :=
  codeTenths (noteFreqCode note)

/-- Modelled from the spec: the reference value for the top octave is
the base table value doubled seven times (times 128, still in tenths of
a hertz) and then rounded to whole hertz by adding 5 and dividing by
10, computed over unbounded integers. -/
def refTopOctaveHz (v : Nat) : Nat :=
  (v * 128 + 5) / 10

end OrangutanBuzzer

namespace OrangutanBuzzer

/- Bit-manipulation helper lemmas. -/

theorem and_251_and_four (x : Nat) : x &&& 251 &&& 4 = 0 := by
  rw [Nat.and_assoc, show (251 &&& 4 : Nat) = 0 by decide, Nat.and_zero]

theorem and_248_or_one_and_seven (x : Nat) : (x &&& 248 ||| 1) &&& 7 = 1 := by
  rw [Nat.and_distrib_right, Nat.and_assoc, show (248 &&& 7 : Nat) = 0 by decide,
    Nat.and_zero, Nat.zero_or, show (1 &&& 7 : Nat) = 1 by decide]

theorem and_248_or_two_and_seven (x : Nat) : (x &&& 248 ||| 2) &&& 7 = 2 := by
  rw [Nat.and_distrib_right, Nat.and_assoc, show (248 &&& 7 : Nat) = 0 by decide,
    Nat.and_zero, Nat.zero_or, show (2 &&& 7 : Nat) = 2 by decide]

theorem and_flag_of_lt {x : Nat} (h : x < 32768) : x &&& 32768 = 0 := by
  rw [show (32768 : Nat) = 2 ^ 15 by norm_num, Nat.and_two_pow,
    Nat.testBit_lt_two_pow (by norm_num at h ⊢; omega)]
  rfl

theorem add_flag_and {t : Nat} (h : t < 32768) : (32768 + t) &&& 32768 = 32768 := by
  rw [show (32768 : Nat) = 2 ^ 15 by norm_num, Nat.and_two_pow,
    Nat.testBit_two_pow_add_eq, Nat.testBit_lt_two_pow (by norm_num at h ⊢; omega)]
  rfl

theorem add_flag_strip {t : Nat} (h : t < 32768) : (32768 + t) &&& 32767 = t := by
  rw [show (32767 : Nat) = 2 ^ 15 - 1 by norm_num, Nat.and_pow_two_sub_one_eq_mod]
  omega

/- Division helper lemmas. -/

theorem div_quant (C f : Nat) (hf : 0 < f) :
    f * (C / f) ≤ C ∧ C < f * (C / f + 1) := by
  refine ⟨Nat.le.intro (Nat.div_add_mod C f), ?_⟩
  calc C = f * (C / f) + C % f := (Nat.div_add_mod C f).symm
    _ < f * (C / f) + f := Nat.add_lt_add_left (Nat.mod_lt C hf) _
    _ = f * (C / f + 1) := (Nat.mul_succ f _).symm

theorem div_small_mod {C f k m : Nat} (hk : k ≤ f) (hkpos : 0 < k) (h : C / k < m) :
    C / f % m = C / f :=
  Nat.mod_eq_of_lt (lt_of_le_of_lt (Nat.div_le_div_left hk hkpos) h)

end OrangutanBuzzer

namespace OrangutanBuzzer

/- Projection lemmas for playFrequency: each field of the resulting
state, read off the definition. -/

theorem playFrequency_finished (f d v : Nat) (s : BuzzerState) :
    (playFrequency f d v s).buzzerFinished = 0 := rfl

theorem playFrequency_iFlag (f d v : Nat) (s : BuzzerState) :
    (playFrequency f d v s).iFlag = true := rfl

theorem playFrequency_tccr1b (f d v : Nat) (s : BuzzerState) :
    (playFrequency f d v s).tccr1b = (pfBranch s.tccr1b (f % 65536)).1 := rfl

theorem playFrequency_ocr1a (f d v : Nat) (s : BuzzerState) :
    (playFrequency f d v s).ocr1a = (pfBranch s.tccr1b (f % 65536)).2.1 := rfl

theorem playFrequency_ocr1b (f d v : Nat) (s : BuzzerState) :
    (playFrequency f d v s).ocr1b =
      (pfBranch s.tccr1b (f % 65536)).2.1 >>>
        (16 - (if v % 256 > 15 then 15 else v % 256)) := rfl

theorem playFrequency_timeout (f d v : Nat) (s : BuzzerState) :
    (playFrequency f d v s).buzzerTimeout = pfTimeout (f % 65536) (d % 65536) := rfl

theorem playFrequency_ddrb (f d v : Nat) (s : BuzzerState) :
    (playFrequency f d v s).ddrb =
      (if v % 256 = 0 then s.ddrb &&& 251 else s.ddrb ||| 4) := rfl

theorem playNote_finished (n d v : Nat) (s : BuzzerState) :
    (playNote n d v s).buzzerFinished = 0 := by
  simp only [playNote]
  split <;> exact playFrequency_finished ..

end OrangutanBuzzer

namespace OrangutanBuzzer

/- Branch lemmas for the clock-select and counter-top computation. -/

theorem pfBranch_low (old f : Nat) (h40 : 40 ≤ f) (h400 : f ≤ 400) :
    pfBranch old f = (old &&& 248 ||| 2, 2500000 / f % 65536, f) := by
  have hflag : f &&& 32768 = 0 := and_flag_of_lt (by omega)
  have h1 : ¬ (400 < f) := by omega
  have h2 : ¬ (f < 40) := by omega
  simp [pfBranch, pfMult, pfStrip, hflag, h1, h2]

theorem pfBranch_high (old f : Nat) (h400 : 400 < f) (h10k : f ≤ 10000) :
    pfBranch old f = (old &&& 248 ||| 1, 20000000 / f % 65536, f) := by
  have hflag : f &&& 32768 = 0 := and_flag_of_lt (by omega)
  have h2 : ¬ (10000 < f) := by omega
  simp [pfBranch, pfMult, pfStrip, hflag, h400, h2]

theorem pfBranch_tenths_low (old t : Nat) (h144 : 144 ≤ t) (h4000 : t ≤ 4000) :
    pfBranch old (32768 + t) = (old &&& 248 ||| 2, 25000000 / t % 65536, t) := by
  have hflag : (32768 + t) &&& 32768 = 32768 := add_flag_and (by omega)
  have hstrip : (32768 + t) &&& 32767 = t := add_flag_strip (by omega)
  have h1 : ¬ (4000 < t) := by omega
  have h2 : ¬ (t < 144) := by omega
  simp [pfBranch, pfMult, pfStrip, hflag, hstrip, h1, h2]

theorem pfBranch_tenths_high (old t : Nat) (h4000 : 4000 < t) (h10k : t ≤ 10000) :
    pfBranch old (32768 + t) = (old &&& 248 ||| 1, 20000000 / t % 65536, t) := by
  have hflag : (32768 + t) &&& 32768 = 32768 := add_flag_and (by omega)
  have hstrip : (32768 + t) &&& 32767 = t := add_flag_strip (by omega)
  have h2 : ¬ (10000 < t) := by omega
  simp [pfBranch, pfMult, pfStrip, hflag, hstrip, h4000, h2]

theorem pfBranch_tenths_higher (old t : Nat) (h10k : 10000 < t) (h15 : t < 32768) :
    pfBranch old (32768 + t) = (old &&& 248 ||| 1, 2000, 10000) := by
  have hflag : (32768 + t) &&& 32768 = 32768 := add_flag_and h15
  have hstrip : (32768 + t) &&& 32767 = t := add_flag_strip h15
  have h1 : 4000 < t := by omega
  simp [pfBranch, pfMult, pfStrip, hflag, hstrip, h1, h10k]

end OrangutanBuzzer

namespace OrangutanBuzzer

/- The effective-frequency pipeline agrees with its flat description. -/

theorem pfEffFreq_eq (f : Nat) : pfEffFreq f = effFreqOf f := by
  by_cases hflag : f &&& 32768 = 0
  · by_cases h400 : 400 < f
    · by_cases h10k : 10000 < f
      · simp [pfEffFreq, pfBranch, pfMult, pfStrip, effFreqOf, hflag, h400, h10k]
      · simp [pfEffFreq, pfBranch, pfMult, pfStrip, effFreqOf, hflag, h400, h10k]
    · by_cases h40 : f < 40
      · simp [pfEffFreq, pfBranch, pfMult, pfStrip, effFreqOf, hflag, h400, h40]
      · simp [pfEffFreq, pfBranch, pfMult, pfStrip, effFreqOf, hflag, h400, h40]
  · by_cases h4000 : 4000 < f &&& 32767
    · by_cases h10k : 10000 < f &&& 32767
      · simp [pfEffFreq, pfBranch, pfMult, pfStrip, effFreqOf, hflag, h4000, h10k]
      · simp [pfEffFreq, pfBranch, pfMult, pfStrip, effFreqOf, hflag, h4000, h10k]
    · by_cases h144 : f &&& 32767 < 144
      · simp [pfEffFreq, pfBranch, pfMult, pfStrip, effFreqOf, hflag, h4000, h144]
      · simp [pfEffFreq, pfBranch, pfMult, pfStrip, effFreqOf, hflag, h4000, h144]

/- Iterated interrupt ticks. -/

theorem ticks_succ (n : Nat) (s : BuzzerState) :
    ticks (n + 1) s = tick (ticks n s) := by
  induction n generalizing s with
  | zero => rfl
  | succ k ih =>
    show ticks (k + 1) (tick s) = tick (ticks (k + 1) s)
    rw [ih (tick s)]
    rfl

theorem ticks_countdown (n : Nat) :
    ∀ s : BuzzerState, s.buzzerTimeout = n → s.buzzerFinished = 0 →
      (ticks n s).buzzerTimeout = 0 ∧ (ticks n s).buzzerFinished = 0 ∧
      (ticks n s).tccr1b = s.tccr1b ∧ (ticks n s).ddrb = s.ddrb := by
  induction n with
  | zero => intro s h1 h2; exact ⟨h1, h2, rfl, rfl⟩
  | succ k ih =>
    intro s h1 h2
    have hne : ¬ s.buzzerTimeout = 0 := by omega
    have htick : tick s = { s with buzzerTimeout := s.buzzerTimeout - 1 } := by
      rw [tick, if_neg hne]
    have hs1 : ({ s with buzzerTimeout := s.buzzerTimeout - 1 } : BuzzerState).buzzerTimeout = k := by
      simp
      omega
    obtain ⟨a, b, c, e⟩ := ih _ hs1 h2
    show (ticks k (tick s)).buzzerTimeout = 0 ∧ (ticks k (tick s)).buzzerFinished = 0 ∧
      (ticks k (tick s)).tccr1b = s.tccr1b ∧ (ticks k (tick s)).ddrb = s.ddrb
    rw [htick]
    exact ⟨a, b, c, e⟩

/-- Claim C1 (corrected). The claim that playFrequency restores the
interrupt-enable state exactly as found is false: line 202 runs sei()
after the SREG restore of line 201, so playFrequency always returns
with global interrupts enabled, whatever the entry state was. -/
theorem C1_sei_always_enables (f d v : Nat) (s : BuzzerState) :
    (playFrequency f d v s).iFlag = true := rfl

/-- Counterexample to claim C1 as stated: a call made while global
interrupts are disabled (the I flag of the post-reset initial state is
clear) returns with interrupts enabled, so the state on return differs
from the state on entry. -/
theorem C1_counterexample_disabled_entry :
    initialState.iFlag = false ∧
    (playFrequency 440 1000 15 initialState).iFlag = true :=
  ⟨rfl, rfl⟩

/-- Claim C2 (code bug). For a tenths-of-Hz request of 30.0 Hz
(frequency code DIV_BY_10 + 300) the documented 40 Hz floor should
raise the value to 400 tenths, but the unsigned char variable val holds
40 * 10 mod 256 = 144, so 300 is not clamped at all: the effective
frequency used for the timeout is 30 Hz (timeout 30 for a 1000 ms
request instead of 40) and the counter top is 25000000 / 300 truncated
to 16 bits. A request of 10.0 Hz (code DIV_BY_10 + 100) is clamped to
144 tenths = 14.4 Hz, not to 40 Hz. -/
theorem C2_wrapped_floor_clamp :
    effFreqOf (DIV_BY_10 + 300) = 30 ∧
    (playFrequency (DIV_BY_10 + 300) 1000 15 initialState).buzzerTimeout = 30 ∧
    (playFrequency (DIV_BY_10 + 300) 1000 15 initialState).ocr1a = 17797 ∧
    (pfBranch 0 (DIV_BY_10 + 100)).2.2 = 144 := by
  decide

/-- Claim C3 (corrected). For every playFrequency call that stores tick
timeout N, isPlaying is true immediately after the call and is still
true after N interrupt ticks; only after N + 1 ticks does isPlaying
become false, with the peripheral left in the idle 1 kHz reference
configuration. The interrupt handler tests buzzerTimeout-- == 0, so the
finishing tick is the one that observes the counter already at zero. -/
theorem C3_countdown_needs_extra_tick (f d v : Nat) (s : BuzzerState) :
    isPlaying (playFrequency f d v s) = true ∧
    isPlaying (ticks (playFrequency f d v s).buzzerTimeout (playFrequency f d v s)) = true ∧
    isPlaying (ticks ((playFrequency f d v s).buzzerTimeout + 1) (playFrequency f d v s)) = false ∧
    idleConfig (ticks ((playFrequency f d v s).buzzerTimeout + 1) (playFrequency f d v s)) := by
  obtain ⟨a, b, c, e⟩ := ticks_countdown (playFrequency f d v s).buzzerTimeout
    (playFrequency f d v s) rfl (playFrequency_finished f d v s)
  refine ⟨?_, ?_, ?_, ?_⟩
  · simp [isPlaying, playFrequency_finished]
  · simp [isPlaying, b]
  · rw [ticks_succ]
    simp only [tick]
    rw [if_pos a]
    simp [isPlaying]
  · rw [ticks_succ]
    simp only [tick]
    rw [if_pos a]
    exact ⟨and_248_or_one_and_seven _, rfl, rfl, and_251_and_four _⟩

/-- Counterexample to claim C3 as stated: playFrequency(1000, 3, 15)
stores tick timeout N = 3 (nonzero duration), yet after exactly 3
interrupt ticks isPlaying still returns true, not false. -/
theorem C3_counterexample_three_ticks :
    (playFrequency 1000 3 15 initialState).buzzerTimeout = 3 ∧
    isPlaying (ticks 3 (playFrequency 1000 3 15 initialState)) = true := by
  decide

/-- Claim C4 (confirmed). In every state reachable from initialization
by playFrequency and playNote calls and interrupt ticks, a set finished
flag implies the buzzer pin is an input and the timer holds the idle
1 kHz reference configuration. -/
theorem C4_finished_implies_idle (s : BuzzerState) (hr : Reachable s) :
    s.buzzerFinished ≠ 0 → idleConfig s := by
  induction hr with
  | start s0 =>
    intro _
    exact ⟨show (25 : Nat) &&& 7 = 1 by decide, rfl, rfl, and_251_and_four s0.ddrb⟩
  | freqStep f d v hs ih =>
    intro h0
    exact absurd (playFrequency_finished ..) h0
  | noteStep n d v hs ih =>
    intro h0
    exact absurd (playNote_finished ..) h0
  | tickStep hs ih =>
    rename_i t
    intro h0
    by_cases ht : t.buzzerTimeout = 0
    · simp only [tick] at h0 ⊢
      rw [if_pos ht]
      exact ⟨and_248_or_one_and_seven _, rfl, rfl, and_251_and_four _⟩
    · have htick : tick t = { t with buzzerTimeout := t.buzzerTimeout - 1 } := by
        rw [tick, if_neg ht]
      rw [htick] at h0 ⊢
      exact ih h0

/-- Witness for claim C4 at a concrete reachable state: after
initialization, playFrequency(1000, 0, 15) stores timeout 0 and the
next interrupt tick finishes, leaving the idle configuration. -/
theorem C4_finished_implies_idle_witness :
    idleConfig (tick (playFrequency 1000 0 15 initialState)) ∧
    (tick (playFrequency 1000 0 15 initialState)).buzzerFinished ≠ 0 := by
  have h2 : (tick (playFrequency 1000 0 15 initialState)).buzzerFinished ≠ 0 := by decide
  exact ⟨C4_finished_implies_idle _
    (Reachable.tickStep (Reachable.freqStep 1000 0 15 (Reachable.start zeroState))) h2, h2⟩

end OrangutanBuzzer

namespace OrangutanBuzzer

/-- Claim C5 (corrected, part proved). For plain-hertz requests in
[40, 10000] the divide-by-8 prescaler is selected exactly when the
frequency is at most 400, with counter top 2500000 / freq (the 2.5 MHz
prescaled clock) below the threshold and 20000000 / freq above it, and
the top is the exact floor of clock / freq, so the programmed period is
within one quantization step of the request. For tenths-of-Hz requests
the same holds with threshold 4000 tenths and top 25000000 / tenths in
the divide-by-8 regime. Tenths requests above 400 Hz fall to the
divide-by-1 branch, where the top is computed from the raw tenths value
and the quantization property against the true frequency fails (see the
counterexample; that regime is described by claim C10). -/
theorem C5_register_computation :
    (∀ f d v : Nat, ∀ s : BuzzerState, 40 ≤ f → f ≤ 10000 →
      ((playFrequency f d v s).tccr1b &&& 7 = if f ≤ 400 then 2 else 1) ∧
      (playFrequency f d v s).ocr1a = (if f ≤ 400 then 2500000 else 20000000) / f ∧
      f * (playFrequency f d v s).ocr1a ≤ (if f ≤ 400 then 2500000 else 20000000) ∧
      (if f ≤ 400 then 2500000 else 20000000) < f * ((playFrequency f d v s).ocr1a + 1)) ∧
    (∀ t d v : Nat, ∀ s : BuzzerState, 400 ≤ t → t ≤ 4000 →
      (playFrequency (DIV_BY_10 + t) d v s).tccr1b &&& 7 = 2 ∧
      (playFrequency (DIV_BY_10 + t) d v s).ocr1a = 25000000 / t ∧
      t * (playFrequency (DIV_BY_10 + t) d v s).ocr1a ≤ 25000000 ∧
      25000000 < t * ((playFrequency (DIV_BY_10 + t) d v s).ocr1a + 1)) := by
  constructor
  · intro f d v s h40 h10k
    have hf : f % 65536 = f := Nat.mod_eq_of_lt (by omega)
    rcases le_or_lt f 400 with h4 | h4
    · have htop : (2500000 : Nat) / f % 65536 = 2500000 / f :=
        div_small_mod h40 (by norm_num) (by norm_num)
      have ho : (playFrequency f d v s).ocr1a = 2500000 / f := by
        rw [playFrequency_ocr1a, hf, pfBranch_low s.tccr1b f h40 h4]
        exact htop
      have hT : (playFrequency f d v s).tccr1b &&& 7 = 2 := by
        rw [playFrequency_tccr1b, hf, pfBranch_low s.tccr1b f h40 h4]
        exact and_248_or_two_and_seven s.tccr1b
      obtain ⟨hq1, hq2⟩ := div_quant 2500000 f (by omega)
      refine ⟨?_, ?_, ?_, ?_⟩
      · rw [if_pos h4]; exact hT
      · rw [if_pos h4]; exact ho
      · rw [if_pos h4, ho]; exact hq1
      · rw [if_pos h4, ho]; exact hq2
    · have htop : (20000000 : Nat) / f % 65536 = 20000000 / f :=
        div_small_mod (show 401 ≤ f by omega) (by norm_num) (by norm_num)
      have ho : (playFrequency f d v s).ocr1a = 20000000 / f := by
        rw [playFrequency_ocr1a, hf, pfBranch_high s.tccr1b f h4 h10k]
        exact htop
      have hT : (playFrequency f d v s).tccr1b &&& 7 = 1 := by
        rw [playFrequency_tccr1b, hf, pfBranch_high s.tccr1b f h4 h10k]
        exact and_248_or_one_and_seven s.tccr1b
      obtain ⟨hq1, hq2⟩ := div_quant 20000000 f (by omega)
      have hni : ¬ f ≤ 400 := by omega
      refine ⟨?_, ?_, ?_, ?_⟩
      · rw [if_neg hni]; exact hT
      · rw [if_neg hni]; exact ho
      · rw [if_neg hni, ho]; exact hq1
      · rw [if_neg hni, ho]; exact hq2
  · intro t d v s h400 h4000
    have hf : (DIV_BY_10 + t) % 65536 = 32768 + t := by
      simp only [DIV_BY_10]; omega
    have hb := pfBranch_tenths_low s.tccr1b t (by omega) h4000
    have htop : (25000000 : Nat) / t % 65536 = 25000000 / t :=
      div_small_mod h400 (by norm_num) (by norm_num)
    have ho : (playFrequency (DIV_BY_10 + t) d v s).ocr1a = 25000000 / t := by
      rw [playFrequency_ocr1a, hf, hb]
      exact htop
    have hT : (playFrequency (DIV_BY_10 + t) d v s).tccr1b &&& 7 = 2 := by
      rw [playFrequency_tccr1b, hf, hb]
      exact and_248_or_two_and_seven s.tccr1b
    obtain ⟨hq1, hq2⟩ := div_quant 25000000 t (by omega)
    refine ⟨hT, ho, ?_, ?_⟩
    · rw [ho]; exact hq1
    · rw [ho]; exact hq2

/-- Witness for claim C5: playFrequency(440, 1000, 15) programs counter
top 20000000 / 440 = 45454, and the tenths request for 100.0 Hz
(code DIV_BY_10 + 1000) programs 25000000 / 1000 = 25000. -/
theorem C5_register_computation_witness :
    (playFrequency 440 1000 15 initialState).ocr1a = 45454 ∧
    (playFrequency (DIV_BY_10 + 1000) 1000 15 initialState).ocr1a = 25000 := by
  have h1 := (C5_register_computation.1 440 1000 15 initialState (by omega) (by omega)).2.1
  have h2 := (C5_register_computation.2 1000 1000 15 initialState (by omega) (by omega)).2.1
  norm_num at h1 h2
  exact ⟨h1, h2⟩

/-- Counterexample to claim C5 as stated: the tenths request for
410.0 Hz (code DIV_BY_10 + 4100, a true frequency inside [40, 10000]
Hz) takes the divide-by-1 branch with counter top 20000000 / 4100 =
4878, which is not within one quantization step of the requested
410 Hz: a top for 410 Hz would satisfy 20000000 < 410 * (top + 1), but
410 * 4879 = 2000390. The programmed frequency is about 4100 Hz, ten
times the request. -/
theorem C5_counterexample_tenths_quantization :
    (playFrequency (DIV_BY_10 + 4100) 1000 15 initialState).tccr1b &&& 7 = 1 ∧
    (playFrequency (DIV_BY_10 + 4100) 1000 15 initialState).ocr1a = 4878 ∧
    ¬ (20000000 < 410 * ((playFrequency (DIV_BY_10 + 4100) 1000 15 initialState).ocr1a + 1)) := by
  decide

/-- Claim C6 (confirmed). The stored tick timeout is the duration
unchanged when the effective rounded-to-hertz frequency is 1000, and
duration * frequency / 1000 truncated (including the truncating store
into the 16-bit variable) otherwise; and playNote with the silent-note
sentinel forces a 1 kHz reference tone at volume 0: top 20000, zero
duty cycle, pin kept as input, and a timeout of exactly the duration. -/
theorem C6_timeout_passthrough_and_scaling :
    (∀ f d v : Nat, ∀ s : BuzzerState, f < 65536 → d < 65536 →
      (playFrequency f d v s).buzzerTimeout =
        if effFreqOf f = 1000 then d else d * effFreqOf f / 1000 % 65536) ∧
    (playNote SILENT_NOTE 500 15 initialState).buzzerTimeout = 500 ∧
    (playNote SILENT_NOTE 500 15 initialState).ocr1a = 20000 ∧
    (playNote SILENT_NOTE 500 15 initialState).ocr1b = 0 ∧
    (playNote SILENT_NOTE 500 15 initialState).ddrb &&& 4 = 0 := by
  refine ⟨?_, by decide, by decide, by decide, by decide⟩
  intro f d v s hf hd
  simp only [playFrequency_timeout, Nat.mod_eq_of_lt hf, Nat.mod_eq_of_lt hd,
    pfTimeout, pfEffFreq_eq]

/-- Witness for claim C6: playFrequency(440, 1000, 15) stores timeout
1000 * 440 / 1000 = 440. -/
theorem C6_timeout_passthrough_and_scaling_witness :
    (playFrequency 440 1000 15 initialState).buzzerTimeout = 440 := by
  have h := C6_timeout_passthrough_and_scaling.1 440 1000 15 initialState
    (by omega) (by omega)
  rw [h, show effFreqOf 440 = 440 by decide]
  norm_num

/-- Claim C7 (confirmed). Volume 0 leaves the buzzer pin as an input
whatever the frequency; any volume above 15 (within the unsigned char
range) yields exactly the state of volume 15; for volumes 1 to 15 the
duty-cycle register is the counter top shifted right by 16 - volume,
and the duty cycle is monotone in the volume. -/
theorem C7_volume_clamp_and_duty (f d : Nat) (s : BuzzerState) :
    ((playFrequency f d 0 s).ddrb &&& 4 = 0) ∧
    (∀ v : Nat, 15 < v → v < 256 → playFrequency f d v s = playFrequency f d 15 s) ∧
    (∀ v : Nat, 1 ≤ v → v ≤ 15 →
      (playFrequency f d v s).ocr1b = (playFrequency f d v s).ocr1a >>> (16 - v)) ∧
    (∀ v1 v2 : Nat, v1 ≤ v2 → v2 ≤ 15 →
      (playFrequency f d v1 s).ocr1b ≤ (playFrequency f d v2 s).ocr1b) := by
  refine ⟨?_, ?_, ?_, ?_⟩
  · rw [playFrequency_ddrb, if_pos (show (0 : Nat) % 256 = 0 from rfl)]
    exact and_251_and_four s.ddrb
  · intro v h15 h256
    have hv : v % 256 = v := Nat.mod_eq_of_lt h256
    have h0 : ¬ v = 0 := by omega
    simp [playFrequency, hv, h0, h15]
  · intro v h1 h15
    have hv : v % 256 = v := Nat.mod_eq_of_lt (by omega)
    rw [playFrequency_ocr1b, playFrequency_ocr1a, hv, if_neg (by omega)]
  · intro v1 v2 h12 h15
    have hv1 : v1 % 256 = v1 := Nat.mod_eq_of_lt (by omega)
    have hv2 : v2 % 256 = v2 := Nat.mod_eq_of_lt (by omega)
    rw [playFrequency_ocr1b f d v1 s, playFrequency_ocr1b f d v2 s, hv1, hv2,
      if_neg (show ¬ v1 > 15 by omega), if_neg (show ¬ v2 > 15 by omega)]
    rw [Nat.shiftRight_eq_div_pow, Nat.shiftRight_eq_div_pow]
    exact Nat.div_le_div_left (Nat.pow_le_pow_right (by norm_num) (by omega))
      (Nat.two_pow_pos _)

/-- Witness for claim C7 at concrete volumes: volume 0 keeps the pin an
input, volume 200 matches volume 15 exactly, volume 7 shifts the top by
9, and volume 3 is no louder than volume 9. -/
theorem C7_volume_clamp_and_duty_witness :
    (playFrequency 440 1000 0 initialState).ddrb &&& 4 = 0 ∧
    playFrequency 440 1000 200 initialState = playFrequency 440 1000 15 initialState ∧
    (playFrequency 440 1000 7 initialState).ocr1b =
      (playFrequency 440 1000 7 initialState).ocr1a >>> 9 ∧
    (playFrequency 440 1000 3 initialState).ocr1b ≤
      (playFrequency 440 1000 9 initialState).ocr1b := by
  obtain ⟨a, b, c, e⟩ := C7_volume_clamp_and_duty 440 1000 initialState
  refine ⟨a, b 200 (by omega) (by omega), ?_, e 3 9 (by omega) (by omega)⟩
  have hc := c 7 (by omega) (by omega)
  simpa using hc

end OrangutanBuzzer

namespace OrangutanBuzzer

/- Single-step monotonicity of the note-to-frequency mapping, checked
over the whole supported span, and its transitive closure. -/

theorem noteTenths_step : ∀ k, k < 111 → 16 ≤ k → noteTenths k ≤ noteTenths (k + 1) := by
  decide

theorem noteTenths_mono (m n : Nat) (hm : 16 ≤ m) (hmn : m ≤ n) (hn : n ≤ 111) :
    noteTenths m ≤ noteTenths n := by
  revert hn
  induction n, hmn using Nat.le_induction with
  | base => intro _; exact Nat.le_refl _
  | succ n hmn ih =>
    intro h111
    exact Nat.le_trans (ih (by omega)) (noteTenths_step n (by omega) (by omega))

/-- Claim C8 (confirmed). Over the supported span of note numbers 16 to
111 the true frequency (in tenths of a hertz) is monotonically
non-decreasing, and moving 12 notes up doubles the true frequency
within integer rounding (at most one hertz of slack, 10 tenths); note
16 maps to the code 412 tenths with the DIV_BY_10 flag set (41.2 Hz)
and note 28 to exactly 824 tenths (82.4 Hz). -/
theorem C8_note_mapping :
    (∀ m n : Nat, 16 ≤ m → m ≤ n → n ≤ 111 → noteTenths m ≤ noteTenths n) ∧
    (∀ n : Nat, 16 ≤ n → n + 12 ≤ 111 →
      noteTenths (n + 12) ≤ 2 * noteTenths n + 10 ∧
      2 * noteTenths n ≤ noteTenths (n + 12) + 10) ∧
    noteFreqCode 16 = DIV_BY_10 + 412 ∧ noteTenths 16 = 412 ∧
    noteFreqCode 28 = DIV_BY_10 + 824 ∧ noteTenths 28 = 824 := by
  refine ⟨noteTenths_mono, ?_, by decide, by decide, by decide, by decide⟩
  have hd : ∀ n : Nat, n < 100 → 16 ≤ n →
      noteTenths (n + 12) ≤ 2 * noteTenths n + 10 ∧
      2 * noteTenths n ≤ noteTenths (n + 12) + 10 := by decide
  intro n h16 h111
  exact hd n (by omega) h16

/-- Witness for claim C8: notes 20 and 30 are ordered, and note 52 is
within a hertz of double note 40. -/
theorem C8_note_mapping_witness :
    noteTenths 20 ≤ noteTenths 30 ∧
    noteTenths 52 ≤ 2 * noteTenths 40 + 10 ∧
    2 * noteTenths 40 ≤ noteTenths 52 + 10 := by
  refine ⟨C8_note_mapping.1 20 30 (by omega) (by omega) (by omega), ?_, ?_⟩
  · exact (C8_note_mapping.2.1 40 (by omega) (by omega)).1
  · exact (C8_note_mapping.2.1 40 (by omega) (by omega)).2

/-- Claim C9 (confirmed). For each of the twelve base table values the
top-octave formula (v * 64 + 2) / 5 used at line 312 equals the
reference value from the spec, (v * 128 + 5) / 10 over unbounded
integers (double seven times, then round tenths to hertz); accordingly
the frequency code of every note in the top octave (notes 100 to 111)
is that reference value of its table entry. -/
theorem C9_top_octave_equivalence :
    (∀ k, k < 12 → (noteTable k * 64 + 2) / 5 = refTopOctaveHz (noteTable k)) ∧
    (∀ n, n < 112 → 100 ≤ n → noteFreqCode n = refTopOctaveHz (noteTable (n - 100))) :=
  ⟨by decide, by decide⟩

/-- Witness for claim C9 at the first table entry: (412 * 64 + 2) / 5 =
(412 * 128 + 5) / 10 = 5274, realized by note 100. -/
theorem C9_top_octave_equivalence_witness :
    (noteTable 0 * 64 + 2) / 5 = refTopOctaveHz (noteTable 0) ∧
    noteFreqCode 100 = refTopOctaveHz (noteTable 0) := by
  refine ⟨C9_top_octave_equivalence.1 0 (by omega), ?_⟩
  have h := C9_top_octave_equivalence.2 100 (by omega) (by omega)
  simpa using h

/-- Claim C10 (confirmed). A tenths-of-Hz request whose tenths value
exceeds 4000 (true frequency above 400 Hz) takes the divide-by-1
branch: the 10 kHz clamp compares the tenths value itself against
10000, the counter top is 20000000 divided by the (clamped) tenths
value, and for unclamped values the top is the exact floor for a
frequency of t hertz rather than t / 10 hertz, so the programmed pitch
is about ten times the request. -/
theorem C10_tenths_uses_raw_value (t d v : Nat) (s : BuzzerState)
    (h4000 : 4000 < t) (h15 : t ≤ 32767) :
    (playFrequency (DIV_BY_10 + t) d v s).tccr1b &&& 7 = 1 ∧
    (playFrequency (DIV_BY_10 + t) d v s).ocr1a =
      20000000 / (if 10000 < t then 10000 else t) ∧
    (t ≤ 10000 →
      t * (playFrequency (DIV_BY_10 + t) d v s).ocr1a ≤ 20000000 ∧
      20000000 < t * ((playFrequency (DIV_BY_10 + t) d v s).ocr1a + 1)) := by
  have hf : (DIV_BY_10 + t) % 65536 = 32768 + t := by
    simp only [DIV_BY_10]; omega
  rcases le_or_lt t 10000 with h10 | h10
  · have hb := pfBranch_tenths_high s.tccr1b t h4000 h10
    have htop : (20000000 : Nat) / t % 65536 = 20000000 / t :=
      div_small_mod (show 4001 ≤ t by omega) (by norm_num) (by norm_num)
    have ho : (playFrequency (DIV_BY_10 + t) d v s).ocr1a = 20000000 / t := by
      rw [playFrequency_ocr1a, hf, hb]
      exact htop
    have hT : (playFrequency (DIV_BY_10 + t) d v s).tccr1b &&& 7 = 1 := by
      rw [playFrequency_tccr1b, hf, hb]
      exact and_248_or_one_and_seven s.tccr1b
    obtain ⟨hq1, hq2⟩ := div_quant 20000000 t (by omega)
    refine ⟨hT, ?_, fun _ => ⟨?_, ?_⟩⟩
    · rw [if_neg (by omega)]; exact ho
    · rw [ho]; exact hq1
    · rw [ho]; exact hq2
  · have hb := pfBranch_tenths_higher s.tccr1b t h10 (by omega)
    have ho : (playFrequency (DIV_BY_10 + t) d v s).ocr1a = 2000 := by
      rw [playFrequency_ocr1a, hf, hb]
    have hT : (playFrequency (DIV_BY_10 + t) d v s).tccr1b &&& 7 = 1 := by
      rw [playFrequency_tccr1b, hf, hb]
      exact and_248_or_one_and_seven s.tccr1b
    refine ⟨hT, ?_, fun hc => absurd hc (by omega)⟩
    rw [if_pos h10, ho]

/-- Witness for claim C10 at the tenths request for 410.0 Hz: the
divide-by-1 clock is selected and the top is 20000000 / 4100 = 4878,
so the output period matches 4100 Hz, not 410 Hz. -/
theorem C10_tenths_uses_raw_value_witness :
    (playFrequency (DIV_BY_10 + 4100) 1000 15 initialState).tccr1b &&& 7 = 1 ∧
    (playFrequency (DIV_BY_10 + 4100) 1000 15 initialState).ocr1a = 4878 ∧
    4100 * (playFrequency (DIV_BY_10 + 4100) 1000 15 initialState).ocr1a ≤ 20000000 := by
  have h := C10_tenths_uses_raw_value 4100 1000 15 initialState (by omega) (by omega)
  have h2 := h.2.1
  norm_num at h2
  exact ⟨h.1, h2, (h.2.2 (by omega)).1⟩

end OrangutanBuzzer
